import Mathlib

/-!
Shallow embedding of the pyEX technical-indicator layer
(`src/pyEX/studies/technicals/overlap.py`) and the ISIN lookup glue
(`src/pyEX/refdata/isin.py`), together with proofs settling the frozen
claims about this code.

Modelling conventions:
- a pandas column of numeric values is a `List Int` (the indicator
  primitives are external and abstract, so the numeric carrier type is
  irrelevant; `astype(float)` is the identity in the model);
- a pandas `DataFrame`, and likewise a Python `dict` of columns, is an
  ordered association list `List (String × List Int)`; Python dict
  assignment `d[k] = v` replaces the value in place when the key exists
  (keeping its position) and appends otherwise, which `dinsert` mirrors;
- the talib module `t` is a structure `TA` of abstract primitive
  functions, one field per primitive the analysed code invokes;
- `client.chartDF` is a pure function `String → String → Frame`; every
  indicator records in its `RunResult` how many times it evaluated
  `client symbol range` and how many times it invoked a talib primitive;
- Python `df[col]` on a missing column raises `KeyError`, modelled as
  `Except.error (PyErr.missingColumn col)`.
-/

namespace PyEX

/-- A numeric array (one column of values). -/
abbrev Arr := List Int

/-- An ordered column table: a pandas DataFrame or a Python dict of columns. -/
abbrev Frame := List (String × Arr)

/-- The quote/history provider: `client.chartDF(symbol, range)`. -/
abbrev Client := String → String → Frame

/-- Failure raised by the pipeline: `df[col]` on an absent column. -/
inductive PyErr where
  | missingColumn : String → PyErr
deriving DecidableEq

/-- A `periods`-style argument as callers may pass it: a bare scalar or a
list of values (`None` is `Option.none` at the call sites). -/
inductive Periods where
  | scalar : Int → Periods
  | list : List Int → Periods

/-- Outcome of one indicator invocation: the table (or error), plus how
many times the series was fetched and the primitive invoked. -/
structure RunResult where
  result : Except PyErr Frame
  fetchCalls : Nat
  primCalls : Nat

/-- The talib primitives the analysed code binds (`import talib as t`).
Each is an external, abstract numeric transform. -/
structure TA where
  EMA : Arr → Int → Arr
  DEMA : Arr → Int → Arr
  TEMA : Arr → Int → Arr
  TRIMA : Arr → Int → Arr
  WMA : Arr → Int → Arr
  T3 : Arr → Int → Int → Arr
  MAVP : Arr → Int → Int → Int → Int → Arr
  BBANDS : Arr → Int → Arr × Arr × Arr
  MAMA : Arr → Int → Int → Arr × Arr
  SAR : Arr → Arr → Int → Int → Arr
  SAREXT : Arr → Arr → Int → Int → Int → Int → Int → Int → Int → Int → Arr
  KAMA : Arr → Int → Arr
  MIDPOINT : Arr → Int → Arr
  MIDPRICE : Arr → Int → Arr

/-- `df[col]`: first column with the given name, if any. -/
def colGet : Frame → String → Option Arr
  | [], _ => none
  | (k, v) :: d, c => if k = c then some v else colGet d c

/-- Python dict assignment `d[k] = v`: replace in place when the key is
present (keeping its position), append otherwise. -/
def dinsert : Frame → String → Arr → Frame
  | [], k, v => [(k, v)]
  | (k', v') :: d, k, v =>
      if k' = k then (k, v) :: d else (k', v') :: dinsert d k v

/-- Modelled from the spec: `tolist` (imported from `pyEX.utils`, whose
source is not under `src/`) is the ParameterNormalizer of spec section 4.2:
a bare scalar becomes a single-element list, an ordered sequence is passed
through as-is, empty sequences included. -/
def tolist : Periods → List Int
  | Periods.scalar v => [v]
  | Periods.list vs => vs

/-- The `for per in periods` loop shared by the multi-period indicators:
insert one computed column per requested period, in iteration order,
keyed by the indicator's format string. -/
def mpBuild (key : Int → String) (prim : Int → Arr) : Frame → List Int → Frame
  | d, [] => d
  | d, p :: ps => mpBuild key prim (dinsert d (key p) (prim p)) ps

/-- The uniform body of the eight multi-period indicator functions:
look up the input column (KeyError if absent, before any primitive runs),
start the build dict with the carried-through column, then run the period
loop.  `fetches` records how many times the caller evaluated
`client.chartDF`; on success the primitive runs once per list element. -/
def runMulti (key : Int → String) (prim : Arr → Int → Arr) (fetches : Nat)
    (df : Frame) (col : String) (ps : List Int) : RunResult :=
  match colGet df col with
  | none => ⟨Except.error (PyErr.missingColumn col), fetches, 0⟩
  | some raw =>
      ⟨Except.ok (mpBuild key (fun p => prim raw p) [(col, raw)] ps),
        fetches, ps.length⟩

/-- Embeds `overlap.dema` (lines 35–58).  One fetch; `None` defaults to
`[30]`; the computed columns are keyed `"ema-" ++ per` (source line 57)
and bound to `t.DEMA`. -/
def dema (ta : TA) (client : Client) (symbol range col : String)
    (periods : Option Periods) : RunResult :=
  runMulti (fun p => "ema-" ++ toString p) ta.DEMA 1
    (client symbol range) col (tolist (periods.getD (Periods.list [30])))

/-- Embeds `overlap.ema` (lines 61–84).  One fetch; `None` defaults to
`[30]`; computed columns keyed `"ema-" ++ per`, bound to `t.EMA`. -/
def ema (ta : TA) (client : Client) (symbol range col : String)
    (periods : Option Periods) : RunResult :=
  runMulti (fun p => "ema-" ++ toString p) ta.EMA 1
    (client symbol range) col (tolist (periods.getD (Periods.list [30])))

/-- Embeds `overlap.sma` (lines 327–350).  One fetch; `None` defaults to
`[30]`; computed columns keyed `"sma-" ++ per`, bound to `t.EMA`
(source line 349 invokes `t.EMA`, not `t.SMA`). -/
def sma (ta : TA) (client : Client) (symbol range col : String)
    (periods : Option Periods) : RunResult :=
  runMulti (fun p => "sma-" ++ toString p) ta.EMA 1
    (client symbol range) col (tolist (periods.getD (Periods.list [30])))

/-- Embeds `overlap.tema` (lines 382–405).  One fetch; `None` defaults to
`[30]`; computed columns keyed `"sma-" ++ per` (source line 404) and
bound to `t.TEMA`. -/
def tema (ta : TA) (client : Client) (symbol range col : String)
    (periods : Option Periods) : RunResult :=
  runMulti (fun p => "sma-" ++ toString p) ta.TEMA 1
    (client symbol range) col (tolist (periods.getD (Periods.list [30])))

/-- Embeds `overlap.trima` (lines 408–431): keyed `"trima-" ++ per`,
bound to `t.TRIMA`. -/
def trima (ta : TA) (client : Client) (symbol range col : String)
    (periods : Option Periods) : RunResult :=
  runMulti (fun p => "trima-" ++ toString p) ta.TRIMA 1
    (client symbol range) col (tolist (periods.getD (Periods.list [30])))

/-- Embeds `overlap.wma` (lines 434–457): keyed `"wma-" ++ per`,
bound to `t.WMA`. -/
def wma (ta : TA) (client : Client) (symbol range col : String)
    (periods : Option Periods) : RunResult :=
  runMulti (fun p => "wma-" ++ toString p) ta.WMA 1
    (client symbol range) col (tolist (periods.getD (Periods.list [30])))

/-- Embeds `overlap.t3` (lines 353–379): keyed `"t3-" ++ per`, bound to
`t.T3` with the scalar `vfactor` passed through unchanged. -/
def t3 (ta : TA) (client : Client) (symbol range col : String)
    (periods : Option Periods) (vfactor : Int) : RunResult :=
  runMulti (fun p => "t3-" ++ toString p) (fun raw p => ta.T3 raw p vfactor) 1
    (client symbol range) col (tolist (periods.getD (Periods.list [30])))

/-- Embeds `overlap.mavp` (lines 151–192).  The source fetches the chart
TWICE: once at line 176 (result discarded by the rebinding at line 181)
and once at line 181; hence `fetches = 2`, with the discarded first fetch
kept as `_df0`.  Computed columns keyed `"mavp-" ++ per`, bound to
`t.MAVP` with `minperiod`, `maxperiod`, `matype` passed through. -/
def mavp (ta : TA) (client : Client) (symbol range col : String)
    (periods : Option Periods) (minperiod maxperiod matype : Int) : RunResult :=
  let _df0 := client symbol range
  runMulti (fun p => "mavp-" ++ toString p)
    (fun raw p => ta.MAVP raw p minperiod maxperiod matype) 2
    (client symbol range) col (tolist (periods.getD (Periods.list [30])))

/-- Embeds `overlap.bollinger` (lines 14–32).  One fetch, one `t.BBANDS`
invocation; the result dict literal inserts `col`, `"upper"`, `"middle"`,
`"lower"` in that order (Python dict literal semantics, duplicates
overwriting in place). -/
def bollinger (ta : TA) (client : Client) (symbol range col : String)
    (period : Int) : RunResult :=
  match colGet (client symbol range) col with
  | none => ⟨Except.error (PyErr.missingColumn col), 1, 0⟩
  | some raw =>
      let bb := ta.BBANDS raw period
      ⟨Except.ok (dinsert (dinsert (dinsert (dinsert [] col raw)
          "upper" bb.1) "middle" bb.2.1) "lower" bb.2.2), 1, 1⟩

/-- Embeds `overlap.mama` (lines 128–148).  One fetch, one `t.MAMA`
invocation; the tuple unpacking assigns `"mama-" ++ col` first, then
`"fama-" ++ col`. -/
def mama (ta : TA) (client : Client) (symbol range col : String)
    (fastlimit slowlimit : Int) : RunResult :=
  match colGet (client symbol range) col with
  | none => ⟨Except.error (PyErr.missingColumn col), 1, 0⟩
  | some raw =>
      let mm := ta.MAMA raw fastlimit slowlimit
      ⟨Except.ok (dinsert (dinsert [(col, raw)]
          ("mama-" ++ col) mm.1) ("fama-" ++ col) mm.2), 1, 1⟩

/-- Embeds `overlap.kama` (lines 107–125): single computed column keyed
`"kama-" ++ col`, bound to `t.KAMA`. -/
def kama (ta : TA) (client : Client) (symbol range col : String)
    (period : Int) : RunResult :=
  match colGet (client symbol range) col with
  | none => ⟨Except.error (PyErr.missingColumn col), 1, 0⟩
  | some raw =>
      ⟨Except.ok (dinsert [(col, raw)] ("kama-" ++ col) (ta.KAMA raw period)),
        1, 1⟩

/-- Embeds `overlap.midpoint` (lines 195–213): single computed column
keyed `"kama-" ++ col` (source line 212 reuses the kama format string),
bound to `t.MIDPOINT`. -/
def midpoint (ta : TA) (client : Client) (symbol range col : String)
    (period : Int) : RunResult :=
  match colGet (client symbol range) col with
  | none => ⟨Except.error (PyErr.missingColumn col), 1, 0⟩
  | some raw =>
      ⟨Except.ok (dinsert [(col, raw)] ("kama-" ++ col) (ta.MIDPOINT raw period)),
        1, 1⟩

/-- Embeds `overlap.midpice` (lines 216–234): single computed column
keyed `"kama-" ++ col` (source line 233 reuses the kama format string),
bound to `t.MIDPRICE`. -/
def midpice (ta : TA) (client : Client) (symbol range col : String)
    (period : Int) : RunResult :=
  match colGet (client symbol range) col with
  | none => ⟨Except.error (PyErr.missingColumn col), 1, 0⟩
  | some raw =>
      ⟨Except.ok (dinsert [(col, raw)] ("kama-" ++ col) (ta.MIDPRICE raw period)),
        1, 1⟩

/-- Embeds `overlap.sar` (lines 237–270).  Python evaluates the call
arguments left to right, so `df[highcol]` is looked up before
`df[lowcol]`; either missing column raises KeyError before `t.SAR` runs.
On success the result dict holds `highcol`, `lowcol`, `"sar"`. -/
def sar (ta : TA) (client : Client) (symbol range highcol lowcol : String)
    (acceleration maximum : Int) : RunResult :=
  match colGet (client symbol range) highcol with
  | none => ⟨Except.error (PyErr.missingColumn highcol), 1, 0⟩
  | some hi =>
      match colGet (client symbol range) lowcol with
      | none => ⟨Except.error (PyErr.missingColumn lowcol), 1, 0⟩
      | some lo =>
          let s := ta.SAR hi lo acceleration maximum
          ⟨Except.ok (dinsert (dinsert (dinsert [] highcol hi) lowcol lo)
              "sar" s), 1, 1⟩

/-- Embeds `overlap.sarext` (lines 273–324): same column handling as
`sar`, binding `t.SAREXT` with its eight scalar parameters passed
through unchanged. -/
def sarext (ta : TA) (client : Client) (symbol range highcol lowcol : String)
    (startvalue offsetonreverse accelerationinitlong accelerationlong
      accelerationmaxlong accelerationinitshort accelerationshort
      accelerationmaxshort : Int) : RunResult :=
  match colGet (client symbol range) highcol with
  | none => ⟨Except.error (PyErr.missingColumn highcol), 1, 0⟩
  | some hi =>
      match colGet (client symbol range) lowcol with
      | none => ⟨Except.error (PyErr.missingColumn lowcol), 1, 0⟩
      | some lo =>
          let s := ta.SAREXT hi lo startvalue offsetonreverse
            accelerationinitlong accelerationlong accelerationmaxlong
            accelerationinitshort accelerationshort accelerationmaxshort
          ⟨Except.ok (dinsert (dinsert (dinsert [] highcol hi) lowcol lo)
              "sar" s), 1, 1⟩

/-- An identifier-mapping record returned by the reference-data endpoint. -/
abbrev Record := List (String × String)

/-- Modelled from the spec: `_get` (imported from `pyEX.common`, whose
source is not under `src/`) performs a single stateless HTTP GET against
the given path, forwarding `token`, `version`, `filter` and `format`, and
returns the endpoint's records unchanged.  The environment maps
(url, token, version, filter, format) to the response records. -/
structure HttpEnv where
  get : String → String → String → String → String → List Record

/-- Records returned by a lookup together with the log of
(url, filter) GET requests it performed. -/
structure GetOutcome where
  records : List Record
  requests : List (String × String)

/-- Embeds `isin.isinLookup` (lines 15–37): one `_get` against
`"ref-data/isin?isin=" ++ isin` with all keyword arguments forwarded. -/
def isinLookup (env : HttpEnv) (isin token version filter format : String) :
    GetOutcome :=
  ⟨env.get ("ref-data/isin?isin=" ++ isin) token version filter format,
    [("ref-data/isin?isin=" ++ isin, filter)]⟩

/-- Embeds `isin.isinLookupDF` (lines 40–42): `pd.DataFrame` applied to
the records of `isinLookup` on the same arguments; the tabular projection
`toDF` (pandas, outside `src/`) is abstract. -/
def isinLookupDF {α : Type} (toDF : List Record → α)
    (env : HttpEnv) (isin token version filter format : String) :
    α × List (String × String) :=
  let r := isinLookup env isin token version filter format
  (toDF r.records, r.requests)

/-- The table of a successful run (`[]` for a failed one). -/
def okFrame : Except PyErr Frame → Frame
  | Except.ok d => d
  | Except.error _ => []

/-- Column names of a successful run's table, in order. -/
def okKeys (r : RunResult) : List String :=
  (okFrame r.result).map Prod.fst

/-- Column value arrays of a successful run's table, in order. -/
def okValues (r : RunResult) : List Arr :=
  (okFrame r.result).map Prod.snd

/-- A concrete talib instance used to evaluate the embedding at concrete
inputs; each primitive is a distinct simple arithmetic transform. -/
def taK : TA where
  EMA := fun xs p => xs.map (fun x => x + p)
  DEMA := fun xs p => xs.map (fun x => x + 2 * p)
  TEMA := fun xs p => xs.map (fun x => x + 3 * p)
  TRIMA := fun xs p => xs.map (fun x => x * p)
  WMA := fun xs p => xs.map (fun x => x - p)
  T3 := fun xs p v => xs.map (fun x => x + p + v)
  MAVP := fun xs p mn mx mt => xs.map (fun x => x + p + mn + mx + mt)
  BBANDS := fun xs p => (xs.map (fun x => x + p), xs.map (fun x => x * 2),
    xs.map (fun x => x - p))
  MAMA := fun xs fl sl => (xs.map (fun x => x + fl), xs.map (fun x => x + sl))
  SAR := fun hi _ acc mx => hi.map (fun x => x + acc + mx)
  SAREXT := fun hi _ a1 _ _ _ _ _ _ _ => hi.map (fun x => x + a1)
  KAMA := fun xs p => xs.map (fun x => x + 10 * p)
  MIDPOINT := fun xs p => xs.map (fun x => x + 11 * p)
  MIDPRICE := fun xs p => xs.map (fun x => x + 12 * p)

/-- A concrete quote provider: every (symbol, range) yields the same
fixed four-column frame (note: no `"low"` column). -/
def clientK : Client := fun _ _ =>
  [("close", [1, 2, 3]), ("high", [3, 4, 5]),
    ("upper", [7, 8, 9]), ("sma-10", [5, 6, 7])]

theorem str_data_append (a b : String) : (a ++ b).data = a.data ++ b.data := rfl

theorem str_length_append (a b : String) :
    (a ++ b).length = a.length + b.length := by
  show (a.data ++ b.data).length = a.data.length + b.data.length
  exact List.length_append a.data b.data

theorem str_append_left_cancel {a b c : String} (h : a ++ b = a ++ c) :
    b = c := by
  have hd : a.data ++ b.data = a.data ++ c.data := by
    have := congrArg String.data h
    rwa [str_data_append, str_data_append] at this
  cases b with
  | mk bd =>
      cases c with
      | mk cd =>
          have : bd = cd := List.append_cancel_left hd
          rw [this]

/-- A nonempty string prepended to a string never gives the string back. -/
theorem pre_append_ne (pre s : String) (h : 0 < pre.length) :
    pre ++ s ≠ s := by
  intro he
  have hl := congrArg String.length he
  rw [str_length_append] at hl
  omega

theorem mama_fama_ne (col : String) : "mama-" ++ col ≠ "fama-" ++ col := by
  intro h
  have hd := congrArg String.data h
  rw [str_data_append, str_data_append] at hd
  have : ("mama-".data : List Char) = "fama-".data :=
    List.append_cancel_right hd
  exact absurd this (by decide)

theorem dinsert_nil (k : String) (v : Arr) : dinsert [] k v = [(k, v)] := rfl

theorem dinsert_cons_ne {k' k : String} (h : k' ≠ k) (v' v : Arr) (d : Frame) :
    dinsert ((k', v') :: d) k v = (k', v') :: dinsert d k v := by
  simp [dinsert, h]

theorem dinsert_keys_eq (k : String) (v w : Arr) :
    ∀ d : Frame, (dinsert d k v).map Prod.fst = (dinsert d k w).map Prod.fst
  | [] => rfl
  | (k', v') :: d => by
      by_cases h : k' = k
      · simp [dinsert, h]
      · rw [dinsert_cons_ne h, dinsert_cons_ne h, List.map_cons, List.map_cons,
          dinsert_keys_eq k v w d]

theorem runMulti_fetchCalls (key : Int → String) (prim : Arr → Int → Arr)
    (fetches : Nat) (df : Frame) (col : String) (ps : List Int) :
    (runMulti key prim fetches df col ps).fetchCalls = fetches := by
  unfold runMulti
  cases colGet df col <;> rfl

theorem runMulti_primCalls_eq (k1 k2 : Int → String)
    (prim1 prim2 : Arr → Int → Arr) (f1 f2 : Nat) (df : Frame)
    (col : String) (ps : List Int) :
    (runMulti k1 prim1 f1 df col ps).primCalls
      = (runMulti k2 prim2 f2 df col ps).primCalls := by
  unfold runMulti
  cases colGet df col <;> rfl

theorem runMulti_empty (key : Int → String) (prim : Arr → Int → Arr)
    (fetches : Nat) (df : Frame) (col : String) (raw : Arr)
    (h : colGet df col = some raw) :
    (runMulti key prim fetches df col []).result = Except.ok [(col, raw)] ∧
    (runMulti key prim fetches df col []).primCalls = 0 := by
  unfold runMulti
  rw [h]
  exact ⟨rfl, rfl⟩

theorem mpBuild_cons_skip (key : Int → String) (prim : Int → Arr)
    (c : String) (r : Arr) :
    ∀ (ps : List Int) (d : Frame), (∀ p ∈ ps, c ≠ key p) →
      mpBuild key prim ((c, r) :: d) ps = (c, r) :: mpBuild key prim d ps
  | [], _, _ => rfl
  | p :: ps, d, h => by
      have hc : c ≠ key p := h p (List.mem_cons_self p ps)
      show mpBuild key prim (dinsert ((c, r) :: d) (key p) (prim p)) ps
          = (c, r) :: mpBuild key prim (dinsert d (key p) (prim p)) ps
      rw [dinsert_cons_ne hc]
      exact mpBuild_cons_skip key prim c r ps _
        (fun q hq => h q (List.mem_cons_of_mem p hq))

theorem dinsert_pre (pre : String) :
    ∀ (d : Frame) (k : String) (v : Arr),
      dinsert (d.map (fun e => (pre ++ e.1, e.2))) (pre ++ k) v
        = (dinsert d k v).map (fun e => (pre ++ e.1, e.2))
  | [], _, _ => rfl
  | (k', v') :: d, k, v => by
      by_cases h : k' = k
      · subst h
        simp [dinsert]
      · have hpk : pre ++ k' ≠ pre ++ k :=
          fun hc => h (str_append_left_cancel hc)
        simp only [List.map_cons]
        rw [dinsert_cons_ne hpk, dinsert_cons_ne h, List.map_cons,
          dinsert_pre pre d k v]

theorem mpBuild_pre (pre : String) (key : Int → String) (prim : Int → Arr) :
    ∀ (ps : List Int) (d : Frame),
      mpBuild (fun p => pre ++ key p) prim
          (d.map (fun e => (pre ++ e.1, e.2))) ps
        = (mpBuild key prim d ps).map (fun e => (pre ++ e.1, e.2))
  | [], _ => rfl
  | p :: ps, d => by
      show mpBuild (fun p => pre ++ key p) prim
          (dinsert (d.map (fun e => (pre ++ e.1, e.2))) (pre ++ key p) (prim p)) ps
        = (mpBuild key prim (dinsert d (key p) (prim p)) ps).map
          (fun e => (pre ++ e.1, e.2))
      rw [dinsert_pre pre d (key p) (prim p)]
      exact mpBuild_pre pre key prim ps _

theorem mpBuild_pre_values (pre : String) (prim : Int → Arr) (ps : List Int) :
    (mpBuild (fun p => pre ++ toString p) prim [] ps).map Prod.snd
      = (mpBuild (fun p => toString p) prim [] ps).map Prod.snd := by
  have h := mpBuild_pre pre (fun p => toString p) prim ps []
  rw [show (([] : Frame).map (fun e => (pre ++ e.1, e.2))) = ([] : Frame)
    from rfl] at h
  rw [h, List.map_map]
  rfl

theorem runMulti_values_agree (pre1 pre2 : String)
    (prim : Arr → Int → Arr) (f1 f2 : Nat) (df : Frame) (col : String)
    (ps : List Int) (h1 : ∀ p ∈ ps, col ≠ pre1 ++ toString p)
    (h2 : ∀ p ∈ ps, col ≠ pre2 ++ toString p) :
    (runMulti (fun p => pre1 ++ toString p) prim f1 df col ps).result.map
        (fun d => d.map Prod.snd)
      = (runMulti (fun p => pre2 ++ toString p) prim f2 df col ps).result.map
        (fun d => d.map Prod.snd) := by
  unfold runMulti
  cases colGet df col with
  | none => rfl
  | some raw =>
      show Except.ok ((mpBuild (fun p => pre1 ++ toString p)
            (fun p => prim raw p) [(col, raw)] ps).map Prod.snd)
          = Except.ok ((mpBuild (fun p => pre2 ++ toString p)
            (fun p => prim raw p) [(col, raw)] ps).map Prod.snd)
      rw [mpBuild_cons_skip _ _ _ _ ps [] h1, mpBuild_cons_skip _ _ _ _ ps [] h2,
        List.map_cons, List.map_cons, mpBuild_pre_values pre1,
        mpBuild_pre_values pre2]

/-- Claim C1: the claim says every multi-period indicator names its
computed columns with its own short name, e.g. `dema-10` for `dema` and
`tema-10` for `tema`.  The code does not: `dema` labels its computed
columns `ema-p` (overlap.py line 57) and `tema` labels its `sma-p`
(line 404), so a `dema` call with periods `[10]` yields the columns
`close, ema-10`, not `close, dema-10`, and a `tema` call yields
`close, sma-10`, not `close, tema-10`. -/
theorem C1_dema_tema_columns_mislabeled :
    okKeys (dema taK clientK "AAPL" "6m" "close" (some (Periods.list [10])))
        = ["close", "ema-10"] ∧
    okKeys (dema taK clientK "AAPL" "6m" "close" (some (Periods.list [10])))
        ≠ ["close", "dema-10"] ∧
    okKeys (tema taK clientK "AAPL" "6m" "close" (some (Periods.list [10])))
        = ["close", "sma-10"] ∧
    okKeys (tema taK clientK "AAPL" "6m" "close" (some (Periods.list [10])))
        ≠ ["close", "tema-10"] := by
  refine ⟨rfl, by decide, rfl, by decide⟩

/-- Claim C2: the claim says every indicator, `mavp` in particular,
performs exactly one fetch per invocation.  The `mavp` source fetches the
chart twice (overlap.py lines 176 and 181, the first result discarded),
so every `mavp` invocation performs two fetches, while e.g. `ema`
performs one. -/
theorem C2_mavp_fetches_twice (ta : TA) (client : Client)
    (symbol range col : String) (periods : Option Periods)
    (minperiod maxperiod matype : Int) :
    (mavp ta client symbol range col periods
        minperiod maxperiod matype).fetchCalls = 2 ∧
    (ema ta client symbol range col periods).fetchCalls = 1 :=
  ⟨runMulti_fetchCalls _ _ _ _ _ _, runMulti_fetchCalls _ _ _ _ _ _⟩

/-- Claim C3, counterexample: with the selected column itself named
`sma-10` and periods `[10]`, the `sma` loop overwrites the carried-through
column in place while `ema` appends a fresh `ema-10` column, so the two
result tables differ in their value arrays, not merely in column names. -/
theorem C3_counterexample :
    (sma taK clientK "AAPL" "6m" "sma-10" (some (Periods.list [10]))).result
        = Except.ok [("sma-10", [15, 16, 17])] ∧
    (ema taK clientK "AAPL" "6m" "sma-10" (some (Periods.list [10]))).result
        = Except.ok [("sma-10", [5, 6, 7]), ("ema-10", [15, 16, 17])] ∧
    okValues (sma taK clientK "AAPL" "6m" "sma-10" (some (Periods.list [10])))
        ≠ okValues (ema taK clientK "AAPL" "6m" "sma-10"
            (some (Periods.list [10]))) := by
  refine ⟨rfl, rfl, by decide⟩

/-- Claim C3 (amended): provided the selected column is not itself named
like a computed column (`sma-p` or `ema-p` for a requested `p`), `sma`
and `ema` agree on the same inputs in everything except the computed
columns' names: both bind `t.EMA` (overlap.py lines 349 and 83), so the
value arrays of the result tables coincide position-wise (and so do the
fetch and primitive counts); when the selected column does collide with a
computed name, the carried-through column is overwritten in one function
but not the other. -/
theorem C3_sma_ema_values_agree (ta : TA) (client : Client)
    (symbol range col : String) (periods : Option Periods)
    (h : ∀ p ∈ tolist (periods.getD (Periods.list [30])),
      col ≠ "sma-" ++ toString p ∧ col ≠ "ema-" ++ toString p) :
    (sma ta client symbol range col periods).result.map
        (fun d => d.map Prod.snd)
      = (ema ta client symbol range col periods).result.map
        (fun d => d.map Prod.snd) ∧
    (sma ta client symbol range col periods).fetchCalls
      = (ema ta client symbol range col periods).fetchCalls ∧
    (sma ta client symbol range col periods).primCalls
      = (ema ta client symbol range col periods).primCalls :=
  ⟨runMulti_values_agree "sma-" "ema-" ta.EMA 1 1 (client symbol range) col
      (tolist (periods.getD (Periods.list [30])))
      (fun p hp => (h p hp).1) (fun p hp => (h p hp).2),
    (runMulti_fetchCalls _ _ _ _ _ _).trans
      (runMulti_fetchCalls _ _ _ _ _ _).symm,
    runMulti_primCalls_eq _ _ _ _ _ _ _ _ _⟩

theorem C3_witness :
    (sma taK clientK "AAPL" "6m" "close" (some (Periods.list [10, 3]))).result.map
        (fun d => d.map Prod.snd)
      = (ema taK clientK "AAPL" "6m" "close"
          (some (Periods.list [10, 3]))).result.map
        (fun d => d.map Prod.snd) :=
  (C3_sma_ema_values_agree taK clientK "AAPL" "6m" "close"
    (some (Periods.list [10, 3])) (by decide)).1

/-- Claim C4: for each of the eight multi-period indicators, passing a
bare scalar period yields exactly the same result as passing the
single-element list holding that value: `tolist` normalizes both to the
same list before the loop runs. -/
theorem C4_scalar_list_equiv (ta : TA) (client : Client)
    (symbol range col : String)
    (p vfactor minperiod maxperiod matype : Int) :
    dema ta client symbol range col (some (Periods.scalar p))
        = dema ta client symbol range col (some (Periods.list [p])) ∧
    ema ta client symbol range col (some (Periods.scalar p))
        = ema ta client symbol range col (some (Periods.list [p])) ∧
    sma ta client symbol range col (some (Periods.scalar p))
        = sma ta client symbol range col (some (Periods.list [p])) ∧
    t3 ta client symbol range col (some (Periods.scalar p)) vfactor
        = t3 ta client symbol range col (some (Periods.list [p])) vfactor ∧
    tema ta client symbol range col (some (Periods.scalar p))
        = tema ta client symbol range col (some (Periods.list [p])) ∧
    trima ta client symbol range col (some (Periods.scalar p))
        = trima ta client symbol range col (some (Periods.list [p])) ∧
    wma ta client symbol range col (some (Periods.scalar p))
        = wma ta client symbol range col (some (Periods.list [p])) ∧
    mavp ta client symbol range col (some (Periods.scalar p))
        minperiod maxperiod matype
      = mavp ta client symbol range col (some (Periods.list [p]))
        minperiod maxperiod matype :=
  ⟨rfl, rfl, rfl, rfl, rfl, rfl, rfl, rfl⟩

/-- Claim C5: calling `sar` or `sarext` against a fetched series lacking
the required low column aborts with the missing-column condition and the
talib primitive is never invoked (Python evaluates `df[highcol]` and
`df[lowcol]` before the `t.SAR`/`t.SAREXT` call begins). -/
theorem C5_missing_low_aborts (ta : TA) (client : Client)
    (symbol range highcol lowcol : String)
    (acceleration maximum startvalue offsetonreverse
      a1 a2 a3 a4 a5 a6 : Int)
    (h : colGet (client symbol range) lowcol = none) :
    ((sar ta client symbol range highcol lowcol
        acceleration maximum).primCalls = 0 ∧
      (∃ c, (sar ta client symbol range highcol lowcol
          acceleration maximum).result
        = Except.error (PyErr.missingColumn c))) ∧
    ((sarext ta client symbol range highcol lowcol startvalue
        offsetonreverse a1 a2 a3 a4 a5 a6).primCalls = 0 ∧
      (∃ c, (sarext ta client symbol range highcol lowcol startvalue
          offsetonreverse a1 a2 a3 a4 a5 a6).result
        = Except.error (PyErr.missingColumn c))) := by
  unfold sar sarext
  cases hh : colGet (client symbol range) highcol with
  | none => exact ⟨⟨rfl, highcol, rfl⟩, ⟨rfl, highcol, rfl⟩⟩
  | some hi =>
      rw [h]
      exact ⟨⟨rfl, lowcol, rfl⟩, ⟨rfl, lowcol, rfl⟩⟩

theorem C5_witness :
    ((sar taK clientK "AAPL" "6m" "high" "low" 0 0).primCalls = 0 ∧
      (∃ c, (sar taK clientK "AAPL" "6m" "high" "low" 0 0).result
        = Except.error (PyErr.missingColumn c))) ∧
    ((sarext taK clientK "AAPL" "6m" "high" "low"
        0 0 0 0 0 0 0 0).primCalls = 0 ∧
      (∃ c, (sarext taK clientK "AAPL" "6m" "high" "low"
          0 0 0 0 0 0 0 0).result
        = Except.error (PyErr.missingColumn c))) :=
  C5_missing_low_aborts taK clientK "AAPL" "6m" "high" "low"
    0 0 0 0 0 0 0 0 0 0 rfl

/-- Claim C6: for each of the eight multi-period indicators, leaving the
periods argument unset (`None`) produces exactly the same result as
passing the explicit single-element list `[30]`. -/
theorem C6_default_periods (ta : TA) (client : Client)
    (symbol range col : String) (vfactor minperiod maxperiod matype : Int) :
    dema ta client symbol range col none
        = dema ta client symbol range col (some (Periods.list [30])) ∧
    ema ta client symbol range col none
        = ema ta client symbol range col (some (Periods.list [30])) ∧
    sma ta client symbol range col none
        = sma ta client symbol range col (some (Periods.list [30])) ∧
    t3 ta client symbol range col none vfactor
        = t3 ta client symbol range col (some (Periods.list [30])) vfactor ∧
    tema ta client symbol range col none
        = tema ta client symbol range col (some (Periods.list [30])) ∧
    trima ta client symbol range col none
        = trima ta client symbol range col (some (Periods.list [30])) ∧
    wma ta client symbol range col none
        = wma ta client symbol range col (some (Periods.list [30])) ∧
    mavp ta client symbol range col none minperiod maxperiod matype
      = mavp ta client symbol range col (some (Periods.list [30]))
        minperiod maxperiod matype :=
  ⟨rfl, rfl, rfl, rfl, rfl, rfl, rfl, rfl⟩

/-- Claim C7: for each of the eight multi-period indicators, an
explicitly empty period list yields a table holding only the
carried-through input column, with zero primitive invocations. -/
theorem C7_empty_periods (ta : TA) (client : Client)
    (symbol range col : String) (vfactor minperiod maxperiod matype : Int)
    (raw : Arr) (h : colGet (client symbol range) col = some raw) :
    ((dema ta client symbol range col (some (Periods.list []))).result
        = Except.ok [(col, raw)] ∧
      (dema ta client symbol range col (some (Periods.list []))).primCalls
        = 0) ∧
    ((ema ta client symbol range col (some (Periods.list []))).result
        = Except.ok [(col, raw)] ∧
      (ema ta client symbol range col (some (Periods.list []))).primCalls
        = 0) ∧
    ((sma ta client symbol range col (some (Periods.list []))).result
        = Except.ok [(col, raw)] ∧
      (sma ta client symbol range col (some (Periods.list []))).primCalls
        = 0) ∧
    ((t3 ta client symbol range col (some (Periods.list [])) vfactor).result
        = Except.ok [(col, raw)] ∧
      (t3 ta client symbol range col (some (Periods.list []))
          vfactor).primCalls = 0) ∧
    ((tema ta client symbol range col (some (Periods.list []))).result
        = Except.ok [(col, raw)] ∧
      (tema ta client symbol range col (some (Periods.list []))).primCalls
        = 0) ∧
    ((trima ta client symbol range col (some (Periods.list []))).result
        = Except.ok [(col, raw)] ∧
      (trima ta client symbol range col (some (Periods.list []))).primCalls
        = 0) ∧
    ((wma ta client symbol range col (some (Periods.list []))).result
        = Except.ok [(col, raw)] ∧
      (wma ta client symbol range col (some (Periods.list []))).primCalls
        = 0) ∧
    ((mavp ta client symbol range col (some (Periods.list []))
        minperiod maxperiod matype).result = Except.ok [(col, raw)] ∧
      (mavp ta client symbol range col (some (Periods.list []))
          minperiod maxperiod matype).primCalls = 0) :=
  ⟨runMulti_empty _ _ _ _ _ _ h, runMulti_empty _ _ _ _ _ _ h,
    runMulti_empty _ _ _ _ _ _ h, runMulti_empty _ _ _ _ _ _ h,
    runMulti_empty _ _ _ _ _ _ h, runMulti_empty _ _ _ _ _ _ h,
    runMulti_empty _ _ _ _ _ _ h, runMulti_empty _ _ _ _ _ _ h⟩

theorem C7_witness :
    ((dema taK clientK "AAPL" "6m" "close" (some (Periods.list []))).result
        = Except.ok [("close", [1, 2, 3])] ∧
      (dema taK clientK "AAPL" "6m" "close"
          (some (Periods.list []))).primCalls = 0) ∧
    ((ema taK clientK "AAPL" "6m" "close" (some (Periods.list []))).result
        = Except.ok [("close", [1, 2, 3])] ∧
      (ema taK clientK "AAPL" "6m" "close"
          (some (Periods.list []))).primCalls = 0) ∧
    ((sma taK clientK "AAPL" "6m" "close" (some (Periods.list []))).result
        = Except.ok [("close", [1, 2, 3])] ∧
      (sma taK clientK "AAPL" "6m" "close"
          (some (Periods.list []))).primCalls = 0) ∧
    ((t3 taK clientK "AAPL" "6m" "close" (some (Periods.list [])) 0).result
        = Except.ok [("close", [1, 2, 3])] ∧
      (t3 taK clientK "AAPL" "6m" "close"
          (some (Periods.list [])) 0).primCalls = 0) ∧
    ((tema taK clientK "AAPL" "6m" "close" (some (Periods.list []))).result
        = Except.ok [("close", [1, 2, 3])] ∧
      (tema taK clientK "AAPL" "6m" "close"
          (some (Periods.list []))).primCalls = 0) ∧
    ((trima taK clientK "AAPL" "6m" "close" (some (Periods.list []))).result
        = Except.ok [("close", [1, 2, 3])] ∧
      (trima taK clientK "AAPL" "6m" "close"
          (some (Periods.list []))).primCalls = 0) ∧
    ((wma taK clientK "AAPL" "6m" "close" (some (Periods.list []))).result
        = Except.ok [("close", [1, 2, 3])] ∧
      (wma taK clientK "AAPL" "6m" "close"
          (some (Periods.list []))).primCalls = 0) ∧
    ((mavp taK clientK "AAPL" "6m" "close" (some (Periods.list []))
        2 30 0).result = Except.ok [("close", [1, 2, 3])] ∧
      (mavp taK clientK "AAPL" "6m" "close" (some (Periods.list []))
          2 30 0).primCalls = 0) :=
  C7_empty_periods taK clientK "AAPL" "6m" "close" 0 2 30 0 [1, 2, 3] rfl

/-- Claim C8, counterexample: with the selected column itself named
`upper`, the `bollinger` result dict literal overwrites the
carried-through column in place (Python dict semantics), so the result
has only the three fixed columns and the input values are gone — the
claimed "carried-through input column plus upper, middle, lower" fails. -/
theorem C8_counterexample :
    (bollinger taK clientK "AAPL" "6m" "upper" 2).result
        = Except.ok [("upper", [9, 10, 11]), ("middle", [14, 16, 18]),
            ("lower", [5, 6, 7])] ∧
    okKeys (bollinger taK clientK "AAPL" "6m" "upper" 2)
        = ["upper", "middle", "lower"] ∧
    colGet (okFrame (bollinger taK clientK "AAPL" "6m" "upper" 2).result)
        "upper" ≠ some [7, 8, 9] := by
  refine ⟨rfl, rfl, by decide⟩

/-- Claim C8 (amended): for every fetched series containing the selected
column, provided the selected column is not itself named `upper`,
`middle` or `lower`, `bollinger` returns exactly the carried-through
column plus the fixed columns `upper`, `middle`, `lower` bound to the
three outputs of a single `t.BBANDS` invocation; `mama` unconditionally
returns exactly the carried-through column plus `mama-col` and
`fama-col` bound to the two outputs of a single `t.MAMA` invocation
(its computed names can never collide with the input column).  When the
selected column is one of the fixed bollinger names, the corresponding
output overwrites the carried-through column in place. -/
theorem C8_fixed_output_columns (ta : TA) (client : Client)
    (symbol range col : String) (period fastlimit slowlimit : Int)
    (raw : Arr) (h : colGet (client symbol range) col = some raw)
    (hu : col ≠ "upper") (hm : col ≠ "middle") (hl : col ≠ "lower") :
    (bollinger ta client symbol range col period).result
        = Except.ok [(col, raw), ("upper", (ta.BBANDS raw period).1),
            ("middle", (ta.BBANDS raw period).2.1),
            ("lower", (ta.BBANDS raw period).2.2)] ∧
    (bollinger ta client symbol range col period).primCalls = 1 ∧
    (mama ta client symbol range col fastlimit slowlimit).result
        = Except.ok [(col, raw),
            ("mama-" ++ col, (ta.MAMA raw fastlimit slowlimit).1),
            ("fama-" ++ col, (ta.MAMA raw fastlimit slowlimit).2)] ∧
    (mama ta client symbol range col fastlimit slowlimit).primCalls = 1 := by
  have hum : ("upper" : String) ≠ "middle" := by decide
  have hul : ("upper" : String) ≠ "lower" := by decide
  have hml : ("middle" : String) ≠ "lower" := by decide
  have hmc : col ≠ "mama-" ++ col :=
    Ne.symm (pre_append_ne "mama-" col (by decide))
  have hfc : col ≠ "fama-" ++ col :=
    Ne.symm (pre_append_ne "fama-" col (by decide))
  have hmf : "mama-" ++ col ≠ "fama-" ++ col := mama_fama_ne col
  unfold bollinger mama
  rw [h]
  refine ⟨?_, rfl, ?_, rfl⟩
  · show Except.ok (dinsert (dinsert (dinsert [(col, raw)]
        "upper" (ta.BBANDS raw period).1)
        "middle" (ta.BBANDS raw period).2.1)
        "lower" (ta.BBANDS raw period).2.2)
      = Except.ok [(col, raw), ("upper", (ta.BBANDS raw period).1),
          ("middle", (ta.BBANDS raw period).2.1),
          ("lower", (ta.BBANDS raw period).2.2)]
    simp only [dinsert_cons_ne hu, dinsert_cons_ne hm, dinsert_cons_ne hum,
      dinsert_cons_ne hl, dinsert_cons_ne hul, dinsert_cons_ne hml,
      dinsert_nil]
  · show Except.ok (dinsert (dinsert [(col, raw)]
        ("mama-" ++ col) (ta.MAMA raw fastlimit slowlimit).1)
        ("fama-" ++ col) (ta.MAMA raw fastlimit slowlimit).2)
      = Except.ok [(col, raw),
          ("mama-" ++ col, (ta.MAMA raw fastlimit slowlimit).1),
          ("fama-" ++ col, (ta.MAMA raw fastlimit slowlimit).2)]
    simp only [dinsert_cons_ne hmc, dinsert_cons_ne hfc,
      dinsert_cons_ne hmf, dinsert_nil]

theorem C8_witness :
    (bollinger taK clientK "AAPL" "6m" "close" 2).result
        = Except.ok [("close", [1, 2, 3]), ("upper", [3, 4, 5]),
            ("middle", [2, 4, 6]), ("lower", [-1, 0, 1])] ∧
    (bollinger taK clientK "AAPL" "6m" "close" 2).primCalls = 1 ∧
    (mama taK clientK "AAPL" "6m" "close" 1 2).result
        = Except.ok [("close", [1, 2, 3]), ("mama-close", [2, 3, 4]),
            ("fama-close", [3, 4, 5])] ∧
    (mama taK clientK "AAPL" "6m" "close" 1 2).primCalls = 1 :=
  C8_fixed_output_columns taK clientK "AAPL" "6m" "close" 2 1 2 [1, 2, 3]
    rfl (by decide) (by decide) (by decide)

/-- Claim C9: `midpoint`, `midpice` and `kama` all label their single
computed column `"kama-" ++ col` (overlap.py lines 212, 233 and 124), so
on identical inputs their result tables have identical column-name
lists and differ only in the computed values. -/
theorem C9_shared_kama_naming (ta : TA) (client : Client)
    (symbol range col : String) (period : Int) :
    okKeys (midpoint ta client symbol range col period)
        = okKeys (kama ta client symbol range col period) ∧
    okKeys (midpice ta client symbol range col period)
        = okKeys (kama ta client symbol range col period) ∧
    ∀ raw, colGet (client symbol range) col = some raw →
      (kama ta client symbol range col period).result
          = Except.ok [(col, raw), ("kama-" ++ col, ta.KAMA raw period)] ∧
      (midpoint ta client symbol range col period).result
          = Except.ok [(col, raw), ("kama-" ++ col, ta.MIDPOINT raw period)] ∧
      (midpice ta client symbol range col period).result
          = Except.ok [(col, raw), ("kama-" ++ col, ta.MIDPRICE raw period)] := by
  have hkc : col ≠ "kama-" ++ col :=
    Ne.symm (pre_append_ne "kama-" col (by decide))
  unfold kama midpoint midpice okKeys
  cases hdf : colGet (client symbol range) col with
  | none =>
      refine ⟨rfl, rfl, fun raw hraw => absurd hraw (by simp)⟩
  | some raw0 =>
      refine ⟨?_, ?_, fun raw hraw => ?_⟩
      · show (dinsert [(col, raw0)] ("kama-" ++ col)
              (ta.MIDPOINT raw0 period)).map Prod.fst
          = (dinsert [(col, raw0)] ("kama-" ++ col)
              (ta.KAMA raw0 period)).map Prod.fst
        exact dinsert_keys_eq _ _ _ _
      · show (dinsert [(col, raw0)] ("kama-" ++ col)
              (ta.MIDPRICE raw0 period)).map Prod.fst
          = (dinsert [(col, raw0)] ("kama-" ++ col)
              (ta.KAMA raw0 period)).map Prod.fst
        exact dinsert_keys_eq _ _ _ _
      · have hr : raw0 = raw := by
          have := hraw
          simp at this
          exact this
        subst hr
        refine ⟨?_, ?_, ?_⟩
        · show Except.ok (dinsert [(col, raw0)] ("kama-" ++ col)
              (ta.KAMA raw0 period))
            = Except.ok [(col, raw0), ("kama-" ++ col, ta.KAMA raw0 period)]
          simp only [dinsert_cons_ne hkc, dinsert_nil]
        · show Except.ok (dinsert [(col, raw0)] ("kama-" ++ col)
              (ta.MIDPOINT raw0 period))
            = Except.ok [(col, raw0),
                ("kama-" ++ col, ta.MIDPOINT raw0 period)]
          simp only [dinsert_cons_ne hkc, dinsert_nil]
        · show Except.ok (dinsert [(col, raw0)] ("kama-" ++ col)
              (ta.MIDPRICE raw0 period))
            = Except.ok [(col, raw0),
                ("kama-" ++ col, ta.MIDPRICE raw0 period)]
          simp only [dinsert_cons_ne hkc, dinsert_nil]

theorem C9_witness :
    (kama taK clientK "AAPL" "6m" "close" 2).result
        = Except.ok [("close", [1, 2, 3]), ("kama-close", [21, 22, 23])] ∧
    (midpoint taK clientK "AAPL" "6m" "close" 2).result
        = Except.ok [("close", [1, 2, 3]), ("kama-close", [23, 24, 25])] ∧
    (midpice taK clientK "AAPL" "6m" "close" 2).result
        = Except.ok [("close", [1, 2, 3]), ("kama-close", [25, 26, 27])] :=
  (C9_shared_kama_naming taK clientK "AAPL" "6m" "close" 2).2.2 [1, 2, 3] rfl

/-- Claim C10: `isinLookup` performs a single stateless GET against
`"ref-data/isin?isin=" ++ isin` with the filter (and the other keyword
arguments) forwarded, returning the endpoint's records unchanged, and
`isinLookupDF` returns the tabular projection of those same records. -/
theorem C10_isin_lookup (env : HttpEnv)
    (isin token version filter format : String)
    {α : Type} (toDF : List Record → α) :
    (isinLookup env isin token version filter format).records
        = env.get ("ref-data/isin?isin=" ++ isin) token version filter format ∧
    (isinLookup env isin token version filter format).requests
        = [("ref-data/isin?isin=" ++ isin, filter)] ∧
    (isinLookupDF toDF env isin token version filter format).1
        = toDF (isinLookup env isin token version filter format).records ∧
    (isinLookupDF toDF env isin token version filter format).2
        = (isinLookup env isin token version filter format).requests :=
  ⟨rfl, rfl, rfl, rfl⟩

end PyEX
